import Mathlib

/-!
Verification of the pt-v5-autotasks decision/execution pipeline.

This file gives a shallow embedding, over exact rationals and natural
numbers, of the profitability decision engine shared by the three bot
variants (arbitrage liquidation, prize claiming, draw/RNG auction):

* `liquidatorHandleArbSwap.ts` (older swap bot),
* the newer arb-liquidator bot (`liquidatorArbitrageSwap` et al.),
* `claimerProfitablePrizeTxs.ts` (claim bot),
* `drawAuction.ts` (auction bot).

JavaScript `number` values (USD figures, market rates) are embedded as
rationals; on-chain `BigNumber` amounts (token amounts, gas, fees per gas)
are embedded as naturals.  Network reads, static calls, fee data and relay
submissions are modelled as explicit inputs, so every function here is a
pure function of the data the source reads.
-/

namespace PtV5Autotasks

/-- `ethers.constants.MaxInt256`, the amount used by every allowance
approval in the repository. -/
def MaxInt256 : ℕ := 2 ^ 255 - 1

/-- `ethers.utils.formatUnits`: converts a fixed-point integer amount into
its decimal value given the token decimals. -/
def formatUnits (amount : ℕ) (decimals : ℕ) : ℚ :=
  (amount : ℚ) / 10 ^ decimals

/-- `roundTwoDecimalPlaces` from the library utils, inlined in the older
swap bot as `Math.round((x + Number.EPSILON) * 100) / 100`.  Over exact
rationals the float epsilon nudge drops out, leaving round-half-up to two
decimals.  In the source it is applied to displayed figures only. -/
def roundTwoDecimalPlaces (x : ℚ) : ℚ :=
  (⌊x * 100 + 1 / 2⌋ : ℚ) / 100

/-- `MIN_PROFIT_THRESHOLD_USD`, the fixed 5 USD threshold hardcoded in the
older swap bot and in the claim bot. -/
def MIN_PROFIT_THRESHOLD_USD : ℚ := 5

/-- Result of `getFeesUsd`: base/max/average fee scenarios in USD. -/
structure FeesUsd where
  baseFeeUsd : ℚ
  maxFeeUsd : ℚ
  avgFeeUsd : ℚ
deriving Repr

/-- `getFeesUsd` (liquidatorHandleArbSwap.ts, lines 271-285; the library
utils variant used by the other bots additionally receives the chain id to
resolve the native-token decimals, 18 on the networks used here, and is
otherwise the same computation per spec section 4.2): wei fees are the fee
per gas times the gas limit, converted to ether and multiplied by the
native-token USD rate; the average is the arithmetic mean of base and max. -/
def getFeesUsd (lastBaseFeePerGas maxFeePerGas estimatedGasLimit : ℕ)
    (ethMarketRateUsd : ℚ) : FeesUsd :=
  let baseFeeWei := lastBaseFeePerGas * estimatedGasLimit
  let maxFeeWei := maxFeePerGas * estimatedGasLimit
  let baseFeeUsd := formatUnits baseFeeWei 18 * ethMarketRateUsd
  let maxFeeUsd := formatUnits maxFeeWei 18 * ethMarketRateUsd
  let avgFeeUsd := (baseFeeUsd + maxFeeUsd) / 2
  ⟨baseFeeUsd, maxFeeUsd, avgFeeUsd⟩

/-- `calculateProfit` of liquidatorHandleArbSwap.ts (lines 415-475): the
estimated swap output and input are converted to USD via their asset
rates, the gas cost is taken at the max-fee scenario, and the net profit
is compared strictly against the fixed 5 USD threshold.  The two-decimal
rounding in the source occurs only inside the `console.table` display. -/
def liqSwapCalculateProfit (amountOutMin exactAmountIn : ℕ)
    (tokenOutDecimals tokenInDecimals : ℕ)
    (tokenOutAssetRateUsd tokenInAssetRateUsd : ℚ)
    (lastBaseFeePerGas maxFeePerGas estimatedGasLimit : ℕ)
    (ethMarketRateUsd : ℚ) : Bool :=
  let fees := getFeesUsd lastBaseFeePerGas maxFeePerGas estimatedGasLimit ethMarketRateUsd
  let tokenOutUsd := formatUnits amountOutMin tokenOutDecimals * tokenOutAssetRateUsd
  let tokenInUsd := formatUnits exactAmountIn tokenInDecimals * tokenInAssetRateUsd
  let grossProfitUsd := tokenOutUsd - tokenInUsd
  let netProfitUsd := grossProfitUsd - fees.maxFeeUsd
  decide (netProfitUsd > MIN_PROFIT_THRESHOLD_USD)

/-- `calculateProfit` of drawAuction.ts (lines 157-192): net profit is the
expected reward minus the total gas cost, compared strictly against the
configured threshold.  `roundTwoDecimalPlaces` appears only in the log
lines. -/
def drawAuctionCalculateProfit (minProfitThresholdUsd rewardUsd totalCostUsd : ℚ) : Bool :=
  let netProfitUsd := rewardUsd - totalCostUsd
  decide (netProfitUsd > minProfitThresholdUsd)

/-- `calculateProfit` of claimerProfitablePrizeTxs.ts (lines 178-253).
`estimatedGasLimit` is the result of `getEstimatedGasLimit`; when the gas
simulation failed and it is zero the code only logs a warning (the
`continue` statement beside the warning is commented out) and the
computation proceeds with zero fees.  `staticTotalFees` is the result of
`claimer.callStatic.claimPrizes`; when that static call reverts the error
is caught and `totalFees` keeps its initial value 0.  The cost basis is
the average-fee scenario, and the comparison against the fixed 5 USD
threshold is strict and made on the unrounded net profit. -/
def claimerCalculateProfit (lastBaseFeePerGas maxFeePerGas estimatedGasLimit : ℕ)
    (ethMarketRateUsd : ℚ) (staticTotalFees : Option ℕ)
    (feeTokenDecimals : ℕ) (feeTokenRateUsd : ℚ) : Bool :=
  let fees := getFeesUsd lastBaseFeePerGas maxFeePerGas estimatedGasLimit ethMarketRateUsd
  let totalFees := staticTotalFees.getD 0
  let totalFeesUsd := formatUnits totalFees feeTokenDecimals * feeTokenRateUsd
  let netProfitUsd := totalFeesUsd - fees.avgFeeUsd
  decide (netProfitUsd > MIN_PROFIT_THRESHOLD_USD)

/-- Result of the newer arb-liquidator `calculateProfit`: the profit shown
in the cycle summary (rounded for display) and the profitability flag. -/
structure ArbProfitResult where
  estimatedProfitUsd : ℚ
  profitable : Bool
deriving Repr, DecidableEq

/-- `calculateProfit` of the newer arb-liquidator bot (part_000, lines
580-673).  When `liquidationRouter.estimateGas.swapExactAmountOut` throws
(`gasEstimate = none`) the function returns profit 0 and not profitable.
Otherwise the swap amounts are converted to USD, the max-fee gas cost is
subtracted, and the unrounded net profit is compared strictly against the
configured threshold; the returned `estimatedProfitUsd` is the rounded
display value. -/
def arbCalculateProfit (minProfitThresholdUsd : ℚ) (amountOut amountIn : ℕ)
    (tokenOutDecimals tokenInDecimals : ℕ)
    (tokenOutUnderlyingAssetRateUsd tokenInAssetRateUsd : ℚ)
    (gasEstimate : Option ℕ) (lastBaseFeePerGas maxFeePerGas : ℕ)
    (nativeTokenMarketRateUsd : ℚ) : ArbProfitResult :=
  match gasEstimate with
  | none => ⟨0, false⟩
  | some estimatedGasLimit =>
    let fees := getFeesUsd lastBaseFeePerGas maxFeePerGas estimatedGasLimit
      nativeTokenMarketRateUsd
    let tokenOutUnderlyingAssetUsd :=
      formatUnits amountOut tokenOutDecimals * tokenOutUnderlyingAssetRateUsd
    let tokenInUsd := formatUnits amountIn tokenInDecimals * tokenInAssetRateUsd
    let grossProfitUsd := tokenOutUnderlyingAssetUsd - tokenInUsd
    let netProfitUsd := grossProfitUsd - fees.maxFeeUsd
    let profitable := decide (netProfitUsd > minProfitThresholdUsd)
    ⟨roundTwoDecimalPlaces netProfitUsd, profitable⟩

/-- One entry of the `stats` array kept by the newer arb-liquidator loop:
one outcome per liquidation pair per cycle. -/
structure Stat where
  pair : String
  estimatedProfitUsd : ℚ
  txHash : Option String
  error : Option String
deriving Repr, DecidableEq

/-- The swap amounts returned by the newer `calculateAmounts`. -/
structure Amounts where
  amountOut : ℕ
  amountIn : ℕ
  amountInMin : ℕ
deriving Repr, DecidableEq

/-- The argument tuple of `liquidationRouter.swapExactAmountOut` built in the
newer arb-liquidator loop (part_000, lines 313-318). -/
structure SwapExactAmountOutParams where
  liquidationPairAddress : ℕ
  swapRecipient : ℕ
  amountOut : ℕ
  amountInMin : ℕ
deriving Repr, DecidableEq

def buildSwapExactAmountOutParams (liquidationPairAddress swapRecipient : ℕ)
    (a : Amounts) : SwapExactAmountOutParams :=
  ⟨liquidationPairAddress, swapRecipient, a.amountOut, a.amountInMin⟩

/-- The per-pair data the newer arb-liquidator bot reads from the chain, the
fee provider and the relay during one evaluation of one liquidation pair.
`computeExactAmountIn` is the pricing oracle of the pair contract;
`gasEstimate = none` means the gas simulation threw; `sendResult` is the
relay submission outcome (`Except.error` = the submission threw). -/
structure PairEnv where
  pair : String
  liquidationPairAddress : ℕ
  tokenInAddress : ℕ
  maxAmountOut : ℕ
  computeExactAmountIn : ℕ → ℕ
  tokenInBalance : ℕ
  tokenInAllowance : ℕ
  tokenInDecimals : ℕ
  tokenOutDecimals : ℕ
  tokenInAssetRateUsd : ℚ
  tokenOutUnderlyingAssetRateUsd : ℚ
  gasEstimate : Option ℕ
  lastBaseFeePerGas : ℕ
  maxFeePerGas : ℕ
  nativeTokenMarketRateUsd : ℚ
  sendResult : Except String String

/-- `calculateAmounts` of the newer arb-liquidator bot (part_000, lines
679-732): reads `maxAmountOut`; when zero, short-circuits with all three
amounts zero.  Otherwise the wanted output is `maxAmountOut / 2`, the
input is `computeExactAmountIn` of that wanted output, and `amountInMin`
is `MaxInt256`.  Note the returned `amountOut` is the full `maxAmountOut`,
not the halved wanted amount. -/
def calculateAmounts (env : PairEnv) : Amounts :=
  let amountOut := env.maxAmountOut
  if amountOut = 0 then ⟨0, 0, 0⟩
  else
    let divisor := 2
    let wantedAmountOut := amountOut / divisor
    let amountIn := env.computeExactAmountIn wantedAmountOut
    let amountInMin := MaxInt256
    ⟨amountOut, amountIn, amountInMin⟩

/-- `checkBalance` of the newer arb-liquidator bot (part_000, lines
562-574): `context.relayer.tokenInBalance.gt(exactAmountIn)`. -/
def checkBalance (tokenInBalance exactAmountIn : ℕ) : Bool :=
  decide (exactAmountIn < tokenInBalance)

/-- Result of `checkBalance` in the older swap bot
(liquidatorHandleArbSwap.ts, lines 380-406). -/
structure BalanceCheckResult where
  sufficientBalance : Bool
  balanceResult : ℕ
deriving Repr, DecidableEq

/-- `checkBalance` of the older swap bot: reads the relayer balance of
`tokenIn` and returns `balanceResult.gt(exactAmountIn)` with the balance. -/
def liqSwapCheckBalance (balanceResult exactAmountIn : ℕ) : BalanceCheckResult :=
  ⟨decide (exactAmountIn < balanceResult), balanceResult⟩

/-- One iteration of the newer arb-liquidator loop (part_000, lines
203-404), as a function from the pair environment to either the recorded
`Stat` (the loop then continues with the next pair) or a thrown error
(`Except.error`, which propagates out of the loop: the source pushes a
stat carrying `error.message` and then rethrows `new Error(error)`).
Skipped outcomes keep the source reason strings; the insufficient-balance
message has its interpolated shortfall omitted.  Errors inside `approve`
are caught and logged there and never escape, so the approval step does
not appear in the result. -/
def processPair (minProfitThresholdUsd : ℚ) (swapRecipient : ℕ)
    (env : PairEnv) : Except String Stat :=
  let a := calculateAmounts env
  if a.amountOut = 0 then
    Except.ok ⟨env.pair, 0, none, some "amountOut is 0"⟩
  else if checkBalance env.tokenInBalance a.amountIn then
    let params := buildSwapExactAmountOutParams env.liquidationPairAddress swapRecipient a
    let res := arbCalculateProfit minProfitThresholdUsd params.amountOut a.amountIn
      env.tokenOutDecimals env.tokenInDecimals
      env.tokenOutUnderlyingAssetRateUsd env.tokenInAssetRateUsd
      env.gasEstimate env.lastBaseFeePerGas env.maxFeePerGas
      env.nativeTokenMarketRateUsd
    if res.profitable then
      match env.sendResult with
      | Except.ok txHash => Except.ok ⟨env.pair, res.estimatedProfitUsd, some txHash, none⟩
      | Except.error e => Except.error e
    else
      Except.ok ⟨env.pair, 0, none, some "Not profitable"⟩
  else
    Except.ok ⟨env.pair, 0, none, some "Insufficient balance"⟩

/-- The `liquidatorArbitrageSwap` cycle (part_000, lines 171-417): the
pairs are evaluated strictly sequentially in discovery order; a recorded
(`Except.ok`) outcome moves on to the next pair, while a rethrown
submission error propagates immediately, so the remaining pairs are never
evaluated and the summary with the collected stats is never reached. -/
def liquidatorArbitrageSwap (minProfitThresholdUsd : ℚ) (swapRecipient : ℕ) :
    List PairEnv → Except String (List Stat)
  | [] => Except.ok []
  | env :: rest =>
    match processPair minProfitThresholdUsd swapRecipient env with
    | Except.ok stat =>
      match liquidatorArbitrageSwap minProfitThresholdUsd swapRecipient rest with
      | Except.ok stats => Except.ok (stat :: stats)
      | Except.error e => Except.error e
    | Except.error e => Except.error e

/-- The fields of the `DrawAuctionContext` snapshot used by the auction
bot logic embedded here.  `relayerRngFeeTokenAllowance` and
`relayerRngFeeTokenBalance` flatten `context.relayer.rngFeeTokenAllowance`
and `context.relayer.rngFeeTokenBalance`; `rngFeeTokenAddress` is
`context.rngFeeToken.address`. -/
structure DrawAuctionContext where
  rngIsAuctionOpen : Bool
  drawIsAuctionOpen : Bool
  rngFeeAmount : ℕ
  rngFeeTokenAddress : ℕ
  relayerRngFeeTokenAllowance : ℕ
  relayerRngFeeTokenBalance : ℕ
deriving Repr, DecidableEq

/-- The two auction sub-contracts handed to the auction bot, over an
abstract contract handle type. -/
structure AuctionContracts (α : Type) where
  rngAuctionContract : α
  drawAuctionContract : α
deriving Repr, DecidableEq

/-- `determineContractToUse` (drawAuction.ts, lines 306-315): the RNG
auction contract whenever `rngIsAuctionOpen`, the draw auction contract
otherwise. -/
def determineContractToUse {α : Type} (context : DrawAuctionContext)
    (auctionContracts : AuctionContracts α) : α :=
  if context.rngIsAuctionOpen then auctionContracts.rngAuctionContract
  else auctionContracts.drawAuctionContract

/-- The contract on which `sendTransaction` (drawAuction.ts, lines
317-349) populates and submits `completeAuction`: it is
`auctionContracts.rngAuctionContract`, unconditionally; the function never
receives the contract chosen by `determineContractToUse`. -/
def sendTransactionTarget {α : Type} (auctionContracts : AuctionContracts α) : α :=
  auctionContracts.rngAuctionContract

/-- `getGasCost` (drawAuction.ts, lines 260-304): when the estimated gas
limit is missing or zero the code only logs
`Estimated gas limit is 0 ...` and carries on; the returned cost is the
max-fee USD scenario of `getFeesUsd`, which is zero when the gas limit is
zero. -/
def getGasCost (lastBaseFeePerGas maxFeePerGas estimatedGasLimit : ℕ)
    (nativeTokenMarketRateUsd : ℚ) : ℚ :=
  (getFeesUsd lastBaseFeePerGas maxFeePerGas estimatedGasLimit
    nativeTokenMarketRateUsd).maxFeeUsd

/-- An ERC-20 `approve` call: the token contract the call is sent to, the
spender argument, and the amount argument. -/
structure ApproveCall where
  token : ℕ
  spender : ℕ
  amount : ℕ
deriving Repr, DecidableEq

/-- The ERC-20 approval issued by `approve` of drawAuction.ts (lines
380-417) when the existing allowance is below the RNG fee amount: the
call is `rngFeeTokenContract.approve(context.rngFeeToken.address,
MaxInt256)`, i.e. both the token contract and the spender argument are
`context.rngFeeToken.address`.  With sufficient allowance no call is
issued. -/
def drawAuctionApproveCall (context : DrawAuctionContext) : Option ApproveCall :=
  if context.relayerRngFeeTokenAllowance < context.rngFeeAmount then
    some ⟨context.rngFeeTokenAddress, context.rngFeeTokenAddress, MaxInt256⟩
  else none

/-- Observable actions of a bot cycle, used to state ordering between the
allowance approval and the main transaction. -/
inductive BotEvent where
  | approveSubmit (token spender amount : ℕ) : BotEvent
  | approveConfirmWait : BotEvent
  | estimateGasCall : BotEvent
  | populateMainTx : BotEvent
  | sendMainTx : BotEvent
  | waitMainTx : BotEvent
deriving Repr, DecidableEq

/-- The awaited actions of `approve` in the newer arb-liquidator bot
(part_000, lines 425-462): on insufficient allowance it submits
`token.approve(liquidationRouter, MaxInt256)` and then awaits
`tx.wait()`; the caller awaits the whole function, so both actions are
sequenced before any later step of the pair evaluation. -/
def arbApproveEvents (tokenInAddress tokenInAllowance amountIn routerAddress : ℕ) :
    List BotEvent :=
  if tokenInAllowance < amountIn then
    [BotEvent.approveSubmit tokenInAddress routerAddress MaxInt256,
     BotEvent.approveConfirmWait]
  else []

/-- The awaited actions of one pair evaluation of the newer arb-liquidator
loop along its profitable path (part_000, steps 4-7 of the loop body). -/
def arbPairEvents (minProfitThresholdUsd : ℚ) (routerAddress : ℕ)
    (env : PairEnv) : List BotEvent :=
  let a := calculateAmounts env
  if a.amountOut = 0 then []
  else if checkBalance env.tokenInBalance a.amountIn then
    arbApproveEvents env.tokenInAddress env.tokenInAllowance a.amountIn routerAddress
      ++ [BotEvent.estimateGasCall]
      ++ (if (arbCalculateProfit minProfitThresholdUsd a.amountOut a.amountIn
              env.tokenOutDecimals env.tokenInDecimals
              env.tokenOutUnderlyingAssetRateUsd env.tokenInAssetRateUsd
              env.gasEstimate env.lastBaseFeePerGas env.maxFeePerGas
              env.nativeTokenMarketRateUsd).profitable then
            [BotEvent.populateMainTx, BotEvent.sendMainTx]
          else [])
  else []

/-- The actions `approve` of drawAuction.ts performs when run to
completion: submit `approve(rngFeeToken.address, MaxInt256)` on the fee
token, then await `tx.wait()`. -/
def drawAuctionApproveEvents (context : DrawAuctionContext) : List BotEvent :=
  if context.relayerRngFeeTokenAllowance < context.rngFeeAmount then
    [BotEvent.approveSubmit context.rngFeeTokenAddress context.rngFeeTokenAddress MaxInt256,
     BotEvent.approveConfirmWait]
  else []

/-- The synchronous prefix of `approve` of drawAuction.ts: execution up to
its first internal await, i.e. up to initiating the ERC-20 approve
transaction.  The confirmation wait lies beyond the first await. -/
def drawAuctionApproveSyncEvents (context : DrawAuctionContext) : List BotEvent :=
  if context.relayerRngFeeTokenAllowance < context.rngFeeAmount then
    [BotEvent.approveSubmit context.rngFeeTokenAddress context.rngFeeTokenAddress MaxInt256]
  else []

/-- The actions of `optionallyIncreaseRngFeeAllowance` (drawAuction.ts,
lines 351-372) that are sequenced before its caller resumes.  The call
`approve(writeProvider, relayerAddress, context)` on line 370 is not
awaited, so only the synchronous prefix of `approve` is sequenced before
the cycle proceeds; the confirmation wait of the approval is deferred and
races the rest of the cycle. -/
def optionallyIncreaseRngFeeAllowanceEvents (context : DrawAuctionContext) :
    List BotEvent :=
  if context.rngIsAuctionOpen ∧ 0 < context.rngFeeAmount then
    drawAuctionApproveSyncEvents context
  else []

/-- The sequenced (awaited, in program order) actions of
`prepareDrawAuctionTxs` (drawAuction.ts, lines 64-129): nothing when both
auctions are closed; otherwise the allowance step, the gas estimation, and
when profitable the population, submission and confirmation wait of the
completion transaction. -/
def prepareDrawAuctionTxsEvents (context : DrawAuctionContext)
    (minProfitThresholdUsd rewardUsd totalCostUsd : ℚ) : List BotEvent :=
  if ¬context.rngIsAuctionOpen ∧ ¬context.drawIsAuctionOpen then []
  else
    optionallyIncreaseRngFeeAllowanceEvents context
      ++ [BotEvent.estimateGasCall]
      ++ (if drawAuctionCalculateProfit minProfitThresholdUsd rewardUsd totalCostUsd then
            [BotEvent.populateMainTx, BotEvent.sendMainTx, BotEvent.waitMainTx]
          else [])

/-- The argument tuple of `claimer.claimPrizes` built by the claim bot. -/
structure ClaimTx where
  drawId : ℕ
  claims : List String
  feeRecipient : ℕ
deriving Repr, DecidableEq

/-- The data one claim-bot cycle reads from the subgraph, the contracts and
the fee provider.  `claims` is the winner list from `getVaultWinnersClaims`;
`staticTotalFees` is `claimer.callStatic.claimPrizes(...).totalFees`
(`none` = the static call reverted, in which case the catch leaves
`totalFees` at 0). -/
structure ClaimerEnv where
  vaults : List String
  claims : List String
  drawId : ℕ
  feeRecipient : ℕ
  staticTotalFees : Option ℕ
  feeTokenDecimals : ℕ
  feeTokenRateUsd : ℚ
  estimatedGasLimit : ℕ
  lastBaseFeePerGas : ℕ
  maxFeePerGas : ℕ
  ethMarketRateUsd : ℚ

/-- `getClaimerProfitablePrizeTxs` (claimerProfitablePrizeTxs.ts, lines
53-119): throws `Claimer: No vaults found in subgraph` when the subgraph
returns zero vaults; the winner list itself is only logged
(`claims.length` winners) and never checked against zero.  The claim batch
for the last completed draw is then passed to the profitability decision,
and a populated `claimPrizes` transaction is produced exactly when that
decision is positive. -/
def getClaimerProfitablePrizeTxs (env : ClaimerEnv) : Except String (List ClaimTx) :=
  if env.vaults.length = 0 then
    Except.error "Claimer: No vaults found in subgraph"
  else
    let profitable := claimerCalculateProfit env.lastBaseFeePerGas env.maxFeePerGas
      env.estimatedGasLimit env.ethMarketRateUsd env.staticTotalFees
      env.feeTokenDecimals env.feeTokenRateUsd
    if profitable then Except.ok [⟨env.drawId, env.claims, env.feeRecipient⟩]
    else Except.ok []

/-- A liquidation pair snapshot whose liquidation mechanism reports no
accrued yield (`maxAmountOut = 0`). -/
def envZeroOut : PairEnv where
  pair := "POOL/pDAI"
  liquidationPairAddress := 3
  tokenInAddress := 4
  maxAmountOut := 0
  computeExactAmountIn := fun _ => 0
  tokenInBalance := 100
  tokenInAllowance := 0
  tokenInDecimals := 0
  tokenOutDecimals := 0
  tokenInAssetRateUsd := 1
  tokenOutUnderlyingAssetRateUsd := 1
  gasEstimate := some 0
  lastBaseFeePerGas := 0
  maxFeePerGas := 0
  nativeTokenMarketRateUsd := 1800
  sendResult := Except.ok "0xabc"

/-- A profitable liquidation pair snapshot whose relay submission throws:
the swap buys 1000 output tokens worth 1000 USD for 80 input tokens worth
80 USD at zero gas price, clearing the 5 USD threshold, and the
`sendTransaction` call fails. -/
def envSubmitFail : PairEnv where
  pair := "POOL/pUSDC"
  liquidationPairAddress := 5
  tokenInAddress := 6
  maxAmountOut := 1000
  computeExactAmountIn := fun _ => 80
  tokenInBalance := 100
  tokenInAllowance := 200
  tokenInDecimals := 0
  tokenOutDecimals := 0
  tokenInAssetRateUsd := 1
  tokenOutUnderlyingAssetRateUsd := 1
  gasEstimate := some 500000
  lastBaseFeePerGas := 0
  maxFeePerGas := 0
  nativeTokenMarketRateUsd := 1800
  sendResult := Except.error "Transaction failed"

/-- Claim C1: for every reward, cost and threshold, each of the four bot
profitability decisions reports profitable exactly when the net profit,
reward minus cost, is strictly greater than the minimum-profit threshold;
a net profit exactly equal to the threshold is not profitable; and the
comparison is made on the unrounded net profit: the final conjuncts
exhibit a run of the newer arb-liquidator decision with net profit 5.004
USD that is reported profitable although its displayed two-decimal
rounding, 5 USD, would fail the strict comparison with the 5 USD
threshold. -/
theorem profitability_decision_strict
    (aOut aIn dOut dIn b m g d : ℕ) (tf : Option ℕ)
    (rOut rIn rate tokenRate t reward cost : ℚ) :
    (liqSwapCalculateProfit aOut aIn dOut dIn rOut rIn b m g rate = true ↔
       formatUnits aOut dOut * rOut - formatUnits aIn dIn * rIn
         - (getFeesUsd b m g rate).maxFeeUsd > MIN_PROFIT_THRESHOLD_USD)
  ∧ ((arbCalculateProfit t aOut aIn dOut dIn rOut rIn (some g) b m rate).profitable = true ↔
       formatUnits aOut dOut * rOut - formatUnits aIn dIn * rIn
         - (getFeesUsd b m g rate).maxFeeUsd > t)
  ∧ (drawAuctionCalculateProfit t reward cost = true ↔ reward - cost > t)
  ∧ (claimerCalculateProfit b m g rate tf d tokenRate = true ↔
       formatUnits (tf.getD 0) d * tokenRate - (getFeesUsd b m g rate).avgFeeUsd
         > MIN_PROFIT_THRESHOLD_USD)
  ∧ drawAuctionCalculateProfit t (cost + t) cost = false
  ∧ liqSwapCalculateProfit 10 5 0 0 1 1 0 0 0 0 = false
  ∧ claimerCalculateProfit 0 0 0 0 (some 5) 0 1 = false
  ∧ (arbCalculateProfit 5 10 5 0 0 1 1 (some 0) 0 0 1).profitable = false
  ∧ (arbCalculateProfit 5 10004 5 3 0 1 1 (some 0) 0 0 1).profitable = true
  ∧ (arbCalculateProfit 5 10004 5 3 0 1 1 (some 0) 0 0 1).estimatedProfitUsd = 5
  ∧ ¬((arbCalculateProfit 5 10004 5 3 0 1 1 (some 0) 0 0 1).estimatedProfitUsd
       > MIN_PROFIT_THRESHOLD_USD) := by
  refine ⟨?_, ?_, ?_, ?_, ?_, ?_, ?_, ?_, ?_, ?_, ?_⟩
  · simp [liqSwapCalculateProfit]
  · simp [arbCalculateProfit]
  · simp [drawAuctionCalculateProfit]
  · simp [claimerCalculateProfit]
  · simp [drawAuctionCalculateProfit]
  · norm_num [liqSwapCalculateProfit, getFeesUsd, formatUnits, MIN_PROFIT_THRESHOLD_USD]
  · norm_num [claimerCalculateProfit, getFeesUsd, formatUnits, MIN_PROFIT_THRESHOLD_USD]
  · norm_num [arbCalculateProfit, getFeesUsd, formatUnits, MIN_PROFIT_THRESHOLD_USD]
  · norm_num [arbCalculateProfit, getFeesUsd, formatUnits, MIN_PROFIT_THRESHOLD_USD]
  · norm_num [arbCalculateProfit, getFeesUsd, formatUnits, MIN_PROFIT_THRESHOLD_USD,
      roundTwoDecimalPlaces]
  · norm_num [arbCalculateProfit, getFeesUsd, formatUnits, MIN_PROFIT_THRESHOLD_USD,
      roundTwoDecimalPlaces]

/-- Claim C8: the resource sufficiency check of both swap bots reports
sufficient exactly when the freshly read balance is strictly greater than
the required input amount; a balance exactly equal to the required amount
is insufficient. -/
theorem balance_check_strict (balance requiredAmount : ℕ) :
    (checkBalance balance requiredAmount = true ↔ requiredAmount < balance)
  ∧ checkBalance requiredAmount requiredAmount = false
  ∧ (liqSwapCheckBalance balance requiredAmount).sufficientBalance
      = checkBalance balance requiredAmount
  ∧ (liqSwapCheckBalance requiredAmount requiredAmount).sufficientBalance = false := by
  refine ⟨?_, ?_, rfl, ?_⟩ <;> simp [checkBalance, liqSwapCheckBalance]

/-- Claim C2 (refuting evidence): when the gas simulation failed and the
estimated gas limit is zero, the claim bot computes zero fees and the
auction bot computes a zero total gas cost, so a large reward still yields
profitable = true - the sentinel zero-gas estimate is priced as a
zero-cost opportunity instead of being rejected.  Here the claim batch is
worth 1000 USD of fees and the auction reward is 1000 USD, with fee data
40 and 60 wei per gas and an 1800 USD native-token rate. -/
theorem zero_gas_cost_reports_profitable :
    claimerCalculateProfit 40 60 0 1800 (some 1000) 0 1 = true
  ∧ getGasCost 40 60 0 1800 = 0
  ∧ drawAuctionCalculateProfit 5 1000 (getGasCost 40 60 0 1800) = true := by
  refine ⟨?_, ?_, ?_⟩ <;>
    norm_num [claimerCalculateProfit, drawAuctionCalculateProfit, getGasCost,
      getFeesUsd, formatUnits, MIN_PROFIT_THRESHOLD_USD]

/-- A draw-auction context in which only the Draw stage is open. -/
def drawOnlyOpenContext : DrawAuctionContext where
  rngIsAuctionOpen := false
  drawIsAuctionOpen := true
  rngFeeAmount := 0
  rngFeeTokenAddress := 7
  relayerRngFeeTokenAllowance := 0
  relayerRngFeeTokenBalance := 0

/-- A draw-auction context in which both stages are open. -/
def bothOpenContext : DrawAuctionContext where
  rngIsAuctionOpen := true
  drawIsAuctionOpen := true
  rngFeeAmount := 0
  rngFeeTokenAddress := 7
  relayerRngFeeTokenAllowance := 0
  relayerRngFeeTokenBalance := 0

/-- Claim C3 (settling evidence): with contract handles 10 (RNG stage) and
20 (Draw stage), `determineContractToUse` implements the claimed selection
- the Draw-stage contract when only the draw auction is open, the
RNG-stage contract taking precedence when both are open - but the
completion transaction is populated and submitted on the RNG-stage
contract in both cases, because `sendTransaction` uses
`auctionContracts.rngAuctionContract` unconditionally and never receives
the selected contract. -/
theorem completion_tx_contract_selection :
    determineContractToUse drawOnlyOpenContext (AuctionContracts.mk 10 20) = 20
  ∧ determineContractToUse bothOpenContext (AuctionContracts.mk 10 20) = 10
  ∧ sendTransactionTarget (AuctionContracts.mk 10 20 : AuctionContracts ℕ) = 10 := by
  refine ⟨?_, ?_, rfl⟩ <;>
    simp [determineContractToUse, sendTransactionTarget, drawOnlyOpenContext, bothOpenContext]

/-- Claim C7: a swap snapshot with zero `maxAmountOut` short-circuits the
parameter calculation with an all-zero candidate; the pair is recorded as
the no-opportunity outcome of the cycle (profit 0, reason string
`amountOut is 0`, no transaction) and the cycle neither throws nor stops:
the remaining pairs are still evaluated. -/
theorem zero_max_amount_out_no_opportunity (t : ℚ) (s : ℕ) (env : PairEnv)
    (rest : List PairEnv) (h : env.maxAmountOut = 0) :
    calculateAmounts env = ⟨0, 0, 0⟩
  ∧ processPair t s env = Except.ok ⟨env.pair, 0, none, some "amountOut is 0"⟩
  ∧ liquidatorArbitrageSwap t s (env :: rest)
      = Except.map
          (fun stats => (⟨env.pair, 0, none, some "amountOut is 0"⟩ : Stat) :: stats)
          (liquidatorArbitrageSwap t s rest) := by
  have hc : calculateAmounts env = ⟨0, 0, 0⟩ := by simp [calculateAmounts, h]
  have hp : processPair t s env = Except.ok ⟨env.pair, 0, none, some "amountOut is 0"⟩ := by
    simp [processPair, hc]
  refine ⟨hc, hp, ?_⟩
  simp only [liquidatorArbitrageSwap, hp]
  cases liquidatorArbitrageSwap t s rest <;> simp [Except.map]

/-- Witness for claim C7 at a concrete snapshot with no accrued yield. -/
theorem zero_max_amount_out_no_opportunity_witness :
    calculateAmounts envZeroOut = ⟨0, 0, 0⟩
  ∧ processPair 5 1 envZeroOut = Except.ok ⟨"POOL/pDAI", 0, none, some "amountOut is 0"⟩
  ∧ liquidatorArbitrageSwap 5 1 [envZeroOut]
      = Except.map
          (fun stats => (⟨"POOL/pDAI", 0, none, some "amountOut is 0"⟩ : Stat) :: stats)
          (liquidatorArbitrageSwap 5 1 []) :=
  zero_max_amount_out_no_opportunity 5 1 envZeroOut [] rfl

/-- Claim C10: for every snapshot with nonzero `maxAmountOut` the newer
arb-liquidator sets `amountInMin` to `MaxInt256`, and the
`swapExactAmountOut` argument tuple submitted for the pair carries that
same unbounded input limit, so no finite slippage bound restricts the
input amount spent. -/
theorem amount_in_min_always_max_int256 (env : PairEnv)
    (pairAddress recipient : ℕ) (h : env.maxAmountOut ≠ 0) :
    (calculateAmounts env).amountInMin = MaxInt256
  ∧ (buildSwapExactAmountOutParams pairAddress recipient (calculateAmounts env)).amountInMin
      = MaxInt256 := by
  have hc : (calculateAmounts env).amountInMin = MaxInt256 := by
    simp [calculateAmounts, h]
  exact ⟨hc, hc⟩

/-- Witness for claim C10 at a concrete snapshot with accrued yield. -/
theorem amount_in_min_always_max_int256_witness :
    (calculateAmounts envSubmitFail).amountInMin = MaxInt256
  ∧ (buildSwapExactAmountOutParams 5 1 (calculateAmounts envSubmitFail)).amountInMin
      = MaxInt256 :=
  amount_in_min_always_max_int256 envSubmitFail 5 1 (by decide)

/-- A draw-auction context with the RNG stage open, a positive RNG fee and
an insufficient allowance, so the allowance-raising step fires. -/
def rngFeeDueContext : DrawAuctionContext where
  rngIsAuctionOpen := true
  drawIsAuctionOpen := false
  rngFeeAmount := 100
  rngFeeTokenAddress := 7
  relayerRngFeeTokenAllowance := 0
  relayerRngFeeTokenBalance := 1000

/-- Claim C6 (refuting evidence): in a draw-auction cycle with the RNG
stage open, a positive RNG fee and insufficient allowance, the sequenced
actions of `prepareDrawAuctionTxs` on a profitable run are the approval
submission, the gas estimation, then population, submission and
confirmation wait of the completion transaction; the approval
confirmation wait is not sequenced anywhere before those later steps,
because the `approve` call inside `optionallyIncreaseRngFeeAllowance` is
not awaited - even though `approve` run to completion would submit the
`MaxInt256` approval and then await its confirmation, as the last
conjunct shows. -/
theorem rng_fee_approval_not_awaited :
    prepareDrawAuctionTxsEvents rngFeeDueContext 5 100 1
      = [BotEvent.approveSubmit 7 7 MaxInt256, BotEvent.estimateGasCall,
         BotEvent.populateMainTx, BotEvent.sendMainTx, BotEvent.waitMainTx]
  ∧ BotEvent.approveConfirmWait ∉ prepareDrawAuctionTxsEvents rngFeeDueContext 5 100 1
  ∧ drawAuctionApproveEvents rngFeeDueContext
      = [BotEvent.approveSubmit 7 7 MaxInt256, BotEvent.approveConfirmWait] := by
  have hp : drawAuctionCalculateProfit 5 100 1 = true := by
    norm_num [drawAuctionCalculateProfit]
  refine ⟨?_, ?_, ?_⟩ <;>
    simp [prepareDrawAuctionTxsEvents, optionallyIncreaseRngFeeAllowanceEvents,
      drawAuctionApproveSyncEvents, drawAuctionApproveEvents, rngFeeDueContext, hp]

/-- Claim C9: whenever the existing allowance is below the RNG fee amount,
the approve call issued by the draw-auction bot is addressed to the RNG
fee token contract and names that same token contract as spender - the
spender argument equals `context.rngFeeToken.address` and differs from
the RNG auction contract address whenever the two addresses are
distinct. -/
theorem rng_fee_approve_spender_is_token (context : DrawAuctionContext)
    (rngAuctionAddress : ℕ)
    (h : context.relayerRngFeeTokenAllowance < context.rngFeeAmount)
    (hne : rngAuctionAddress ≠ context.rngFeeTokenAddress) :
    drawAuctionApproveCall context
      = some ⟨context.rngFeeTokenAddress, context.rngFeeTokenAddress, MaxInt256⟩
  ∧ Option.map ApproveCall.spender (drawAuctionApproveCall context)
      ≠ some rngAuctionAddress := by
  constructor
  · simp [drawAuctionApproveCall, h]
  · simp only [drawAuctionApproveCall, if_pos h, Option.map_some]
    intro hc
    have heq : context.rngFeeTokenAddress = rngAuctionAddress := by simpa using hc
    exact hne heq.symm

/-- Witness for claim C9 at the concrete fee-due context, against an RNG
auction contract at address 99. -/
theorem rng_fee_approve_spender_is_token_witness :
    drawAuctionApproveCall rngFeeDueContext = some ⟨7, 7, MaxInt256⟩
  ∧ Option.map ApproveCall.spender (drawAuctionApproveCall rngFeeDueContext) ≠ some 99 :=
  rng_fee_approve_spender_is_token rngFeeDueContext 99 (by decide) (by decide)

/-- The USD fee scenarios are nonnegative whenever the native-token USD
rate is: gas quantities are naturals and only products and nonnegative
divisions occur. -/
theorem getFeesUsd_avg_nonneg (b m g : ℕ) (rate : ℚ) (h : 0 ≤ rate) :
    0 ≤ (getFeesUsd b m g rate).avgFeeUsd := by
  unfold getFeesUsd formatUnits
  dsimp only
  have h1 : (0 : ℚ) ≤ ((b * g : ℕ) : ℚ) / 10 ^ 18 * rate :=
    mul_nonneg (by positivity) h
  have h2 : (0 : ℚ) ≤ ((m * g : ℕ) : ℚ) / 10 ^ 18 * rate :=
    mul_nonneg (by positivity) h
  have h3 : (0 : ℚ) ≤ (((b * g : ℕ) : ℚ) / 10 ^ 18 * rate
      + ((m * g : ℕ) : ℚ) / 10 ^ 18 * rate) / 2 := by positivity
  exact h3

/-- Claim C4 (amended): in the newer arb-liquidator cycle, every
opportunity outcome that is recorded without throwing - zero available
output, insufficient balance, a failed gas estimate, an unprofitable
result, or a successful submission - lets evaluation proceed to the next
pair; but an error thrown while submitting, although recorded in the
stats entry for that pair before the rethrow, aborts the evaluation of
all remaining pairs, and such a thrown error can only originate in the
relay submission result. -/
theorem arb_swap_failure_scope (t : ℚ) (s : ℕ) (env : PairEnv) (rest : List PairEnv) :
    (∀ stat, processPair t s env = Except.ok stat →
        liquidatorArbitrageSwap t s (env :: rest)
          = Except.map (fun stats => stat :: stats) (liquidatorArbitrageSwap t s rest))
  ∧ (∀ e, processPair t s env = Except.error e →
        liquidatorArbitrageSwap t s (env :: rest) = Except.error e
          ∧ env.sendResult = Except.error e) := by
  constructor
  · intro stat h
    simp only [liquidatorArbitrageSwap, h]
    cases liquidatorArbitrageSwap t s rest <;> simp [Except.map]
  · intro e h
    have hmain : liquidatorArbitrageSwap t s (env :: rest) = Except.error e := by
      simp only [liquidatorArbitrageSwap, h]
    refine ⟨hmain, ?_⟩
    unfold processPair at h
    split at h
    all_goals simp only [] at h
    all_goals split at h
    all_goals try split at h
    all_goals try split at h
    all_goals simp_all

/-- Claim C4 counterexample: a concrete cycle with two pairs, the first
profitable but with a throwing relay submission, the second a recordable
zero-output skip; the rethrown submission error aborts the cycle, so the
second pair is never evaluated and no summary survives - refuting that a
failure during execution of one opportunity never aborts evaluation of
the remaining opportunities. -/
theorem arb_swap_submit_error_aborts_cycle :
    liquidatorArbitrageSwap 5 1 [envSubmitFail, envZeroOut]
      = Except.error "Transaction failed" := by
  have hp : processPair 5 1 envSubmitFail = Except.error "Transaction failed" := by
    norm_num [processPair, calculateAmounts, checkBalance, buildSwapExactAmountOutParams,
      arbCalculateProfit, getFeesUsd, formatUnits, envSubmitFail]
  simp only [liquidatorArbitrageSwap, hp]

/-- Witness for the amended claim C4 theorem at the same concrete cycle:
the submission error recorded for the first pair is exactly the error
that aborts the cycle, and it originated in the relay submission. -/
theorem arb_swap_failure_scope_witness :
    liquidatorArbitrageSwap 5 1 [envSubmitFail, envZeroOut]
        = Except.error "Transaction failed"
      ∧ envSubmitFail.sendResult = Except.error "Transaction failed" :=
  (arb_swap_failure_scope 5 1 envSubmitFail [envZeroOut]).2 "Transaction failed"
    (by norm_num [processPair, calculateAmounts, checkBalance,
      buildSwapExactAmountOutParams, arbCalculateProfit, getFeesUsd, formatUnits,
      envSubmitFail])

/-- Claim C5 (amended): the claim bot aborts the cycle fatally when the
subgraph discovery returns zero vaults; a cycle that finds vaults but zero
winners is not an error - the static claim simulation of the empty batch
then yields zero total fees (or reverts, which the catch also leaves at
zero), the profitability decision rejects the batch against the positive
fixed threshold, and the cycle returns normally with no claim transaction
produced. -/
theorem claimer_zero_winners_not_fatal (env : ClaimerEnv)
    (hrate : 0 ≤ env.ethMarketRateUsd) :
    (env.vaults = [] →
        getClaimerProfitablePrizeTxs env
          = Except.error "Claimer: No vaults found in subgraph")
  ∧ (env.vaults ≠ [] → env.staticTotalFees.getD 0 = 0 →
        getClaimerProfitablePrizeTxs env = Except.ok []) := by
  constructor
  · intro hv
    simp [getClaimerProfitablePrizeTxs, hv]
  · intro hv hf
    have havg := getFeesUsd_avg_nonneg env.lastBaseFeePerGas env.maxFeePerGas
      env.estimatedGasLimit env.ethMarketRateUsd hrate
    have hnp : claimerCalculateProfit env.lastBaseFeePerGas env.maxFeePerGas
        env.estimatedGasLimit env.ethMarketRateUsd env.staticTotalFees
        env.feeTokenDecimals env.feeTokenRateUsd = false := by
      unfold claimerCalculateProfit
      simp only [hf, formatUnits, Nat.cast_zero, zero_div, zero_mul, zero_sub,
        MIN_PROFIT_THRESHOLD_USD, decide_eq_false_iff_not, not_lt, gt_iff_lt]
      linarith
    simp [getClaimerProfitablePrizeTxs, hv, hnp, List.length_eq_zero]

/-- A claim-bot cycle input with one vault, zero winners for the latest
completed draw, and ordinary fee data. -/
def claimerEnvNoWinners : ClaimerEnv where
  vaults := ["vault1"]
  claims := []
  drawId := 3
  feeRecipient := 9
  staticTotalFees := some 0
  feeTokenDecimals := 18
  feeTokenRateUsd := 1
  estimatedGasLimit := 250000
  lastBaseFeePerGas := 40
  maxFeePerGas := 60
  ethMarketRateUsd := 1800

/-- A claim-bot cycle input whose subgraph discovery returns no vaults. -/
def claimerEnvNoVaults : ClaimerEnv where
  vaults := []
  claims := []
  drawId := 3
  feeRecipient := 9
  staticTotalFees := some 0
  feeTokenDecimals := 18
  feeTokenRateUsd := 1
  estimatedGasLimit := 250000
  lastBaseFeePerGas := 40
  maxFeePerGas := 60
  ethMarketRateUsd := 1800

/-- Claim C5 counterexample: the concrete zero-winner cycle returns
normally (`Except.ok []`, no transaction) rather than throwing a fatal
cycle-aborting error: only the zero-vault case is fatal. -/
theorem claimer_zero_winners_returns_normally :
    getClaimerProfitablePrizeTxs claimerEnvNoWinners = Except.ok [] := by
  norm_num [getClaimerProfitablePrizeTxs, claimerCalculateProfit, getFeesUsd,
    formatUnits, MIN_PROFIT_THRESHOLD_USD, claimerEnvNoWinners]

/-- Witness for the amended claim C5 theorem: the zero-vault cycle throws
the fatal subgraph error. -/
theorem claimer_zero_winners_not_fatal_witness :
    getClaimerProfitablePrizeTxs claimerEnvNoVaults
      = Except.error "Claimer: No vaults found in subgraph" :=
  (claimer_zero_winners_not_fatal claimerEnvNoVaults (by norm_num [claimerEnvNoVaults])).1 rfl

end PtV5Autotasks
